import Mathlib

/-!
Shallow embedding of the scoped-token authentication core of the repository:
`src/services/auth.py` (class `Auth`: password hashing, JWT encode/decode,
token issuance, scope-checked decoding, Redis-cached bearer resolution),
`src/repository/users.py` (user lookup and mutation helpers) and
`src/routes/auth.py` (login, refresh and email-confirmation flows).

Modelling conventions:
* A JWT string is modelled by `TokenStr`: either a well-formed compact token
  `signed claims key alg` (the claims dict, the key it was signed with and the
  header algorithm) or a structurally invalid string `malformed raw`.
* `jwt_decode` models `jose.jwt.decode(token, key, algorithms=[alg])`: header
  algorithm check, then signature check, then `exp` validation (a token is
  expired when `exp < now`, zero leeway), each failure a distinct member of
  `JoseError`.  All `JoseError` values model exceptions that Python's
  `except JWTError` catches (`ExpiredSignatureError` subclasses `JWTError`).
* Wall-clock reads (`datetime.utcnow()`) are passed explicitly as `now : Int`
  (seconds); the several reads inside one Python function body are modelled as
  one instant.
* The JWT payload dict is modelled by `Payload`; the only custom claim the
  repository ever stores is `"sub"`, and `dict.update` in `__encode_jwt` is
  the structure update setting `iat`, `exp` and `scope`.
* A stored password hash is `HashStr`: either a well-formed bcrypt hash
  (recording its salt and the hashed plaintext) or a malformed string.
  `pwd_context_verify` models passlib's `CryptContext.verify`, which raises
  `UnknownHashError` when the hash cannot be identified.
* The user table is `UserStore : String -> Option User` keyed by the unique
  email column; SQLAlchemy object mutation plus `commit` is a functional
  update at the user's email key.
* The Redis session cache is `Redis : String -> Option (User, Option Int)`:
  value plus absolute expiry instant (`none` = no TTL).  `redis.set` stores
  without TTL, `redis.expire` attaches one; `pickle.dumps`/`loads` round-trip
  a `User` exactly, so the cached value is stored directly.
* Raised exceptions become `Except` errors: `HTTPException(status, detail)`
  is `HttpErr`; an exception that no route handler catches (the
  `AttributeError` from `None.refresh_token`, passlib's `UnknownHashError`)
  is a distinguished `RouteErr` member.
* Functions that also perform store/cache writes return the new state; where
  a claim is about avoiding a lookup, the function additionally returns a
  `Bool` flag recording whether the user-store collaborator was consulted.
-/

deriving instance DecidableEq for Except

namespace M02Auth

/-- Scope string written by `create_access_token`. -/
def accessScope : String := "access_token"

/-- Scope string written by `create_refresh_token`. -/
def refreshScope : String := "refresh_token"

/-- Scope string written by `create_email_token`. -/
def emailScope : String := "email_token"

/-- Process-wide signing key `Auth.SECRET_KEY = settings.secret_key_jwt`. -/
def SECRET_KEY : String := "settings-secret-key-jwt"

/-- Process-wide algorithm `Auth.ALGORITHM = settings.algorithm`. -/
def ALGORITHM : String := "HS256"

/-- JWT claim dict: `sub` (the only custom claim the repository stores),
plus the registered claims `iat`, `exp`, `scope` written by `__encode_jwt`. -/
structure Payload where
  sub : Option String
  iat : Option Int
  exp : Option Int
  scope : Option String
deriving DecidableEq

/-- A JWT compact string: well-formed and signed (claims, signing key, header
algorithm), or structurally invalid. -/
inductive TokenStr where
  | signed (claims : Payload) (key : String) (alg : String)
  | malformed (raw : String)
deriving DecidableEq

/-- Failure causes of `jose.jwt.decode`.  `expiredSignature` models
`ExpiredSignatureError`; the others are plain `JWTError`s (bad header
algorithm, failed signature verification, not enough segments).  Every one of
them is caught by Python's `except JWTError`. -/
inductive JoseError where
  | expiredSignature
  | algNotAllowed
  | signatureFailed
  | notEnoughSegments
deriving DecidableEq

/-- `jose.jwt.encode(claims, key, algorithm=alg)`. -/
def jwt_encode (claims : Payload) (key : String) (alg : String) : TokenStr :=
  TokenStr.signed claims key alg

/-- `jose.jwt.decode(token, key, algorithms=[alg])` at wall-clock `now`:
structural parse, header-algorithm check, signature verification, then
`exp` validation (expired when `exp < now`, zero leeway; a missing `exp`
claim is not validated). -/
def jwt_decode (token : TokenStr) (key : String) (alg : String) (now : Int) :
    Except JoseError Payload :=
  match token with
  | TokenStr.malformed _ => Except.error JoseError.notEnoughSegments
  | TokenStr.signed claims k a =>
    if a ≠ alg then Except.error JoseError.algNotAllowed
    else if k ≠ key then Except.error JoseError.signatureFailed
    else
      match claims.exp with
      | some e => if e < now then Except.error JoseError.expiredSignature else Except.ok claims
      | none => Except.ok claims

/-- `Auth.__decode_jwt`: decode with the process-wide key and algorithm. -/
def decode_jwt (token : TokenStr) (now : Int) : Except JoseError Payload :=
  jwt_decode token SECRET_KEY ALGORITHM now

/-- `Auth.__encode_jwt`: copy the data dict, update `iat`, `exp`, `scope`,
sign with the process-wide key and algorithm. -/
def encode_jwt (data : Payload) (iat : Int) (exp : Int) (scope : String) : TokenStr :=
  jwt_encode { data with iat := some iat, exp := some exp, scope := some scope }
    SECRET_KEY ALGORITHM

/-- `Auth.create_access_token`: `expire = utcnow() + timedelta(seconds=
expires_delta or 15 * 60)`.  Python's `or` treats an explicit `0` as falsy,
so `expires_delta = 0` silently falls back to the 15-minute default. -/
def create_access_token (data : Payload) (expires_delta : Option Int) (now : Int) : TokenStr :=
  let seconds : Int :=
    match expires_delta with
    | some d => if d = 0 then 15 * 60 else d
    | none => 15 * 60
  encode_jwt data now (now + seconds) accessScope

/-- `Auth.create_refresh_token`: `timedelta(seconds=expires_delta) if
expires_delta else timedelta(days=7)` (same falsy-zero behaviour). -/
def create_refresh_token (data : Payload) (expires_delta : Option Int) (now : Int) : TokenStr :=
  let seconds : Int :=
    match expires_delta with
    | some d => if d = 0 then 7 * 24 * 60 * 60 else d
    | none => 7 * 24 * 60 * 60
  encode_jwt data now (now + seconds) refreshScope

/-- `Auth.create_email_token`: default TTL one day. -/
def create_email_token (data : Payload) (expires_delta : Option Int) (now : Int) : TokenStr :=
  let seconds : Int :=
    match expires_delta with
    | some d => if d = 0 then 24 * 60 * 60 else d
    | none => 24 * 60 * 60
  encode_jwt data now (now + seconds) emailScope

/-- `fastapi.HTTPException(status_code, detail)`. -/
structure HttpErr where
  status : Nat
  detail : String
deriving DecidableEq

/-- The `credentials_exception` of `get_current_user` and the handler of
`except JWTError` in `decode_refresh_token`. -/
def credentialsException : HttpErr :=
  { status := 401, detail := "Could not validate credentials" }

/-- Wrong-scope rejection in `decode_refresh_token` / `get_email_from_token`. -/
def invalidScopeErr : HttpErr :=
  { status := 401, detail := "Invalid scope for token" }

/-- `get_email_from_token`'s handler of `except JWTError`. -/
def invalidEmailTokenErr : HttpErr :=
  { status := 422, detail := "Invalid token for email verification" }

/-- Refresh-token mismatch rejection in the `refresh_token` route. -/
def invalidRefreshErr : HttpErr :=
  { status := 401, detail := "Invalid refresh token" }

/-- Unknown-email rejection in the `login` route. -/
def invalidEmailErr : HttpErr :=
  { status := 401, detail := "Invalid email" }

/-- Unconfirmed-email rejection in the `login` route. -/
def notConfirmedErr : HttpErr :=
  { status := 401, detail := "Email not confirmed" }

/-- Wrong-password rejection in the `login` route. -/
def invalidPasswordErr : HttpErr :=
  { status := 401, detail := "Invalid password" }

/-- Missing-user rejection in the `confirmed_email` route. -/
def verificationErr : HttpErr :=
  { status := 400, detail := "Verification error" }

/-- `Auth.decode_refresh_token`: decode, require scope `refresh_token`,
return `payload.get("sub")` (possibly absent); wrong scope raises 401
`Invalid scope for token` (an `HTTPException`, not caught by the
`except JWTError` clause); any `JWTError` raises 401
`Could not validate credentials`. -/
def decode_refresh_token (refresh_token : TokenStr) (now : Int) :
    Except HttpErr (Option String) :=
  match decode_jwt refresh_token now with
  | Except.ok payload =>
    if payload.scope = some refreshScope then Except.ok payload.sub
    else Except.error invalidScopeErr
  | Except.error _ => Except.error credentialsException

/-- `Auth.get_email_from_token`: decode, require scope `email_token`, return
`payload.get("sub")`; wrong scope raises 401 `Invalid scope for token`; any
`JWTError` raises 422 `Invalid token for email verification`. -/
def get_email_from_token (token : TokenStr) (now : Int) :
    Except HttpErr (Option String) :=
  match decode_jwt token now with
  | Except.ok payload =>
    if payload.scope = some emailScope then Except.ok payload.sub
    else Except.error invalidScopeErr
  | Except.error _ => Except.error invalidEmailTokenErr

/-- A stored password-hash string: a well-formed bcrypt hash (salt and the
plaintext it hashes) or a string passlib cannot identify as a hash. -/
inductive HashStr where
  | bcrypt (salt : String) (plain : String)
  | malformed (raw : String)
deriving DecidableEq

/-- passlib exceptions escaping `CryptContext.verify`. -/
inductive PasslibError where
  | unknownHash
deriving DecidableEq

/-- passlib `CryptContext.verify(secret, hash)` with `schemes=["bcrypt"]`:
on a well-formed bcrypt hash, re-hash the secret with the stored salt and
compare; on a string that cannot be identified as a hash, raise
`UnknownHashError`. -/
def pwd_context_verify (plain_password : String) (hashed_password : HashStr) :
    Except PasslibError Bool :=
  match hashed_password with
  | HashStr.bcrypt _ p => Except.ok (decide (p = plain_password))
  | HashStr.malformed _ => Except.error PasslibError.unknownHash

/-- `Auth.verify_password`: delegates to `pwd_context.verify` with no
exception handling of its own. -/
def verify_password (plain_password : String) (hashed_password : HashStr) :
    Except PasslibError Bool :=
  pwd_context_verify plain_password hashed_password

/-- `Auth.get_password_hash`: bcrypt hash of the password with a fresh salt
(the salt is passed explicitly here). -/
def get_password_hash (password : String) (salt : String) : HashStr :=
  HashStr.bcrypt salt password

/-- Row of the `users` table (the columns this core reads or writes). -/
structure User where
  id : Int
  email : String
  password : HashStr
  refresh_token : Option TokenStr
  confirmed : Bool
deriving DecidableEq

/-- The user table, keyed by the unique `email` column. -/
abbrev UserStore := String → Option User

namespace repository_users

/-- `repository_users.get_user_by_email`: select by email. -/
def get_user_by_email (email : String) (db : UserStore) : Option User :=
  db email

/-- `repository_users.update_token`: `user.refresh_token = token; commit`. -/
def update_token (user : User) (token : Option TokenStr) (db : UserStore) : UserStore :=
  fun e => if e = user.email then some { user with refresh_token := token } else db e

/-- `repository_users.confirmed_email`: `user.confirmed = True; commit`. -/
def confirmed_email (user : User) (db : UserStore) : UserStore :=
  fun e => if e = user.email then some { user with confirmed := true } else db e

end repository_users

/-- Redis key space: cached `User` plus optional absolute expiry instant. -/
abbrev Redis := String → Option (User × Option Int)

/-- `redis.get(key)` at wall-clock `now`: an entry whose TTL has lapsed is
gone. -/
def redis_get (st : Redis) (key : String) (now : Int) : Option User :=
  match st key with
  | some (v, some e) => if now < e then some v else none
  | some (v, none) => some v
  | none => none

/-- `redis.set(key, value)`: store with no TTL. -/
def redis_set (st : Redis) (key : String) (v : User) : Redis :=
  fun k => if k = key then some (v, none) else st k

/-- `redis.expire(key, ttl)` at wall-clock `now`: attach an absolute expiry
to an existing entry. -/
def redis_expire (st : Redis) (key : String) (ttl : Int) (now : Int) : Redis :=
  fun k =>
    if k = key then
      match st key with
      | some (v, _) => some (v, some (now + ttl))
      | none => none
    else st k

/-- Cache key `f"user:{email}"`. -/
def userKey (email : String) : String := "user:" ++ email

/-- `Auth.get_current_user`: decode the bearer token, require scope
`access_token` and a present `sub` (any failure is the uniform
`credentials_exception`); then `redis.get` the cached user, falling back on a
miss to the user store (absent user is again `credentials_exception`),
caching the fetched user with `redis.set` + `redis.expire(900)`.
Returns (result, cache state after the call, whether the user store was
consulted). -/
def get_current_user (token : TokenStr) (now : Int) (db : UserStore) (st : Redis) :
    Except HttpErr User × Redis × Bool :=
  match decode_jwt token now with
  | Except.error _ => (Except.error credentialsException, st, false)
  | Except.ok payload =>
    if payload.scope = some accessScope then
      match payload.sub with
      | none => (Except.error credentialsException, st, false)
      | some email =>
        match redis_get st (userKey email) now with
        | some cached => (Except.ok cached, st, false)
        | none =>
          match repository_users.get_user_by_email email db with
          | none => (Except.error credentialsException, st, true)
          | some user =>
            let st1 := redis_set st (userKey email) user
            let st2 := redis_expire st1 (userKey email) 900 now
            (Except.ok user, st2, true)
    else (Except.error credentialsException, st, false)

/-- Outcome of a route call: a raised `HTTPException`, or an exception no
route code catches (`AttributeError` from `None.refresh_token`, passlib's
`UnknownHashError` escaping `verify_password`). -/
inductive RouteErr where
  | http (e : HttpErr)
  | unhandledAttributeError
  | unhandledUnknownHashError
deriving DecidableEq

/-- The `data={"sub": email}` dict passed to the token constructors. -/
def mkSubData (email : String) : Payload :=
  { sub := some email, iat := none, exp := none, scope := none }

namespace routes_auth

/-- Route `POST /api/auth/login`: look up by email (401 `Invalid email` when
absent), require `confirmed` (401 `Email not confirmed`), verify the
password (401 `Invalid password`), then issue an access/refresh pair and
persist the refresh token.  Returns (result, user table after the call). -/
def login (username : String) (password : String) (db : UserStore) (now : Int) :
    Except RouteErr (TokenStr × TokenStr) × UserStore :=
  match repository_users.get_user_by_email username db with
  | none => (Except.error (RouteErr.http invalidEmailErr), db)
  | some user =>
    if user.confirmed = false then (Except.error (RouteErr.http notConfirmedErr), db)
    else
      match verify_password password user.password with
      | Except.error _ => (Except.error RouteErr.unhandledUnknownHashError, db)
      | Except.ok false => (Except.error (RouteErr.http invalidPasswordErr), db)
      | Except.ok true =>
        let access_token := create_access_token (mkSubData user.email) none now
        let new_refresh := create_refresh_token (mkSubData user.email) none now
        let db1 := repository_users.update_token user (some new_refresh) db
        (Except.ok (access_token, new_refresh), db1)

/-- Route `GET /api/auth/refresh_token`: decode the refresh token (scope
checked inside `decode_refresh_token`), look the user up by the decoded
subject — the lookup result is dereferenced with no `None` check, so an
absent user is an unhandled `AttributeError` — compare the stored refresh
token with the presented one; a mismatch clears the stored token
(`update_token(user, None)`) and raises 401 `Invalid refresh token`; a match
issues a fresh pair and persists the new refresh token. -/
def refresh_token (credentials : TokenStr) (db : UserStore) (now : Int) :
    Except RouteErr (TokenStr × TokenStr) × UserStore :=
  match decode_refresh_token credentials now with
  | Except.error e => (Except.error (RouteErr.http e), db)
  | Except.ok none => (Except.error RouteErr.unhandledAttributeError, db)
  | Except.ok (some email) =>
    match repository_users.get_user_by_email email db with
    | none => (Except.error RouteErr.unhandledAttributeError, db)
    | some user =>
      if user.refresh_token ≠ some credentials then
        let db1 := repository_users.update_token user none db
        (Except.error (RouteErr.http invalidRefreshErr), db1)
      else
        let access_token := create_access_token (mkSubData email) none now
        let new_refresh := create_refresh_token (mkSubData email) none now
        let db1 := repository_users.update_token user (some new_refresh) db
        (Except.ok (access_token, new_refresh), db1)

/-- Message returned when the identity is already confirmed. -/
def alreadyConfirmedMsg : String := "Your email is already confirmed"

/-- Message returned on a fresh confirmation. -/
def emailConfirmedMsg : String := "Email confirmed"

/-- Route `GET /api/auth/confirmed_email/{token}`: decode the email token,
look the user up by the decoded subject (400 `Verification error` when
absent), answer `already confirmed` without writing when `confirmed` is
already set, else set it. -/
def confirmed_email (token : TokenStr) (db : UserStore) (now : Int) :
    Except RouteErr String × UserStore :=
  match get_email_from_token token now with
  | Except.error e => (Except.error (RouteErr.http e), db)
  | Except.ok emailOpt =>
    let userOpt :=
      match emailOpt with
      | some email => repository_users.get_user_by_email email db
      | none => none
    match userOpt with
    | none => (Except.error (RouteErr.http verificationErr), db)
    | some user =>
      if user.confirmed then (Except.ok alreadyConfirmedMsg, db)
      else (Except.ok emailConfirmedMsg, repository_users.confirmed_email user db)

end routes_auth

/-! Concrete inputs used by the witness theorems. -/

/-- Sample subject email. -/
def emailA : String := "a@x.com"

/-- Sample plaintext password. -/
def pwA : String := "secret"

/-- Sample bcrypt salt. -/
def saltA : String := "s1"

/-- Sample string that is not a well-formed hash or token. -/
def rawA : String := "zzz"

/-- Sample key different from the process-wide signing key. -/
def forgedKey : String := "forged-key"

/-- Sample scope string matching none of the three issued scopes. -/
def bogusScope : String := "bogus"

/-- A validly signed, unexpired token with the unused scope `bogus`. -/
def tokenWrongScope : TokenStr :=
  TokenStr.signed { sub := some emailA, iat := some 0, exp := some 100, scope := some bogusScope }
    SECRET_KEY ALGORITHM

/-- Claims of a refresh-scoped token expiring at instant 5. -/
def expiredClaims : Payload :=
  { sub := some emailA, iat := some 0, exp := some 5, scope := some refreshScope }

/-- A correctly signed token that is expired at instant 10. -/
def expiredToken : TokenStr := TokenStr.signed expiredClaims SECRET_KEY ALGORITHM

/-- Claims of a refresh-scoped token expiring at instant 100. -/
def liveClaims : Payload :=
  { sub := some emailA, iat := some 0, exp := some 100, scope := some refreshScope }

/-- An unexpired token signed with the wrong key. -/
def forgedToken : TokenStr := TokenStr.signed liveClaims forgedKey ALGORITHM

/-- A structurally invalid token string. -/
def malformedToken : TokenStr := TokenStr.malformed rawA

/-- The empty session cache. -/
def emptyRedis : Redis := fun _ => none

/-- A confirmed user whose stored hash is the bcrypt hash of `pwA`. -/
def userConfA : User :=
  { id := 1, email := emailA, password := HashStr.bcrypt saltA pwA,
    refresh_token := none, confirmed := true }

/-- A user table holding exactly `userConfA`. -/
def dbA : UserStore := fun e => if e = emailA then some userConfA else none

/-- An unconfirmed user whose stored hash is the bcrypt hash of `pwA`. -/
def userUnconfA : User :=
  { id := 2, email := emailA, password := HashStr.bcrypt saltA pwA,
    refresh_token := none, confirmed := false }

/-- A user table holding exactly `userUnconfA`. -/
def dbUnconfA : UserStore := fun e => if e = emailA then some userUnconfA else none

/-- An email-verification token for `a@x.com` issued at instant 0. -/
def emailTokA : TokenStr := create_email_token (mkSubData emailA) none 0

/-- An access token for `a@x.com` issued at instant 0 with the default TTL. -/
def accessTokA : TokenStr := create_access_token (mkSubData emailA) none 0

/-- A refresh token for `a@x.com` issued at instant 0 with the default TTL. -/
def refreshTokA : TokenStr := create_refresh_token (mkSubData emailA) none 0

/-- A confirmed user whose stored refresh token differs from `refreshTokA`. -/
def userStaleA : User :=
  { id := 3, email := emailA, password := HashStr.bcrypt saltA pwA,
    refresh_token := none, confirmed := true }

/-- A user table holding exactly `userStaleA`. -/
def dbStaleA : UserStore := fun e => if e = emailA then some userStaleA else none

/-! Theorems. -/

/-- C6 counterexample: for the plaintext `secret` and the malformed stored
hash `zzz`, `verify_password` does not return `false` — passlib's
`CryptContext.verify` raises `UnknownHashError` on a hash it cannot
identify, and `verify_password` adds no exception handling. -/
theorem verify_password_malformed_not_false_cex :
    verify_password pwA (HashStr.malformed rawA) ≠ Except.ok false := by
  decide

/-- C6 (amended): for every plaintext `p` and every stored string that is
not a well-formed password hash, `verify_password` propagates passlib's
`UnknownHashError` (an uncaught exception) instead of returning `false`. -/
theorem verify_password_malformed_raises (p raw : String) :
    verify_password p (HashStr.malformed raw) = Except.error PasslibError.unknownHash :=
  rfl

/-- C8: for every claims dict, scope, issuance instant and positive ttl,
decoding (with the process-wide key and algorithm used for both directions)
the token produced by `__encode_jwt` succeeds immediately after issuance and
yields claims whose `scope` is the requested scope and whose `sub` is the
input dict's `sub` (encode/decode round-trip). -/
theorem encode_decode_roundtrip (data : Payload) (scope : String) (now ttl : Int)
    (httl : 0 < ttl) :
    decode_jwt (encode_jwt data now (now + ttl) scope) now
      = Except.ok { data with iat := some now, exp := some (now + ttl), scope := some scope }
    ∧ ∀ p, decode_jwt (encode_jwt data now (now + ttl) scope) now = Except.ok p →
        p.scope = some scope ∧ p.sub = data.sub := by
  have hnl : ¬ (now + ttl < now) := by omega
  have h : decode_jwt (encode_jwt data now (now + ttl) scope) now
      = Except.ok { data with iat := some now, exp := some (now + ttl), scope := some scope } := by
    unfold decode_jwt encode_jwt jwt_encode jwt_decode
    simp [hnl]
  refine ⟨h, ?_⟩
  intro p hp
  rw [h] at hp
  injection hp with h2
  subst h2
  exact ⟨rfl, rfl⟩

/-- C8 witness: concrete round-trip at ttl 60 seconds. -/
theorem encode_decode_roundtrip_witness :
    (0 : Int) < 60
    ∧ decode_jwt (encode_jwt (mkSubData emailA) 0 (0 + 60) accessScope) 0
        = Except.ok { mkSubData emailA with
            iat := some 0, exp := some (0 + 60), scope := some accessScope } :=
  ⟨by decide, (encode_decode_roundtrip (mkSubData emailA) accessScope 0 60 (by decide)).1⟩

/-- C2: for every token that decodes successfully to claims `p`, each
consuming operation rejects a scope other than its own with its
wrong-scope/unauthorized error and returns no subject or identity:
`get_current_user` requires `access_token`, `decode_refresh_token` requires
`refresh_token`, `get_email_from_token` requires `email_token`. -/
theorem scope_mismatch_rejected (t : TokenStr) (now : Int) (p : Payload)
    (hok : decode_jwt t now = Except.ok p) :
    (p.scope ≠ some accessScope →
      ∀ db st, (get_current_user t now db st).1 = Except.error credentialsException)
    ∧ (p.scope ≠ some refreshScope →
      decode_refresh_token t now = Except.error invalidScopeErr)
    ∧ (p.scope ≠ some emailScope →
      get_email_from_token t now = Except.error invalidScopeErr) := by
  refine ⟨?_, ?_, ?_⟩
  · intro hs db st
    simp [get_current_user, hok, hs]
  · intro hs
    simp [decode_refresh_token, hok, hs]
  · intro hs
    simp [get_email_from_token, hok, hs]

/-- C2 witness: a validly signed token with the unused scope `bogus` is
rejected by the refresh-token decoder. -/
theorem scope_mismatch_rejected_witness :
    decode_refresh_token tokenWrongScope 0 = Except.error invalidScopeErr :=
  (scope_mismatch_rejected tokenWrongScope 0
    { sub := some emailA, iat := some 0, exp := some 100, scope := some bogusScope }
    (by decide)).2.1 (by decide)

/-- C4 counterexample: an expired correctly-signed token, an unexpired token
signed with the wrong key, and a structurally invalid token all fail with
one identical error — 401 `Could not validate credentials` — from both
`decode_refresh_token` and `get_current_user`: the cited operations do not
distinguish the failure causes, and in particular the expired token yields
exactly the error a forged token yields. -/
theorem decode_failure_causes_collapsed_cex :
    decode_refresh_token expiredToken 10 = Except.error credentialsException
    ∧ decode_refresh_token forgedToken 10 = Except.error credentialsException
    ∧ decode_refresh_token malformedToken 10 = Except.error credentialsException
    ∧ (get_current_user expiredToken 10 (fun _ => none) (fun _ => none)).1
        = Except.error credentialsException
    ∧ (get_current_user forgedToken 10 (fun _ => none) (fun _ => none)).1
        = Except.error credentialsException
    ∧ (get_current_user malformedToken 10 (fun _ => none) (fun _ => none)).1
        = Except.error credentialsException := by
  decide

/-- C4 (amended): the underlying JWT decode distinguishes failure causes —
an expired correctly-signed token fails with `ExpiredSignatureError` (never
the signature error), a wrong-key token with the signature `JWTError`, a
structurally invalid token with the segments `JWTError` — but
`decode_refresh_token` and `get_current_user` catch every `JWTError`
subtype and surface the single uniform 401 `Could not validate credentials`
for all three causes. -/
theorem decode_errors_distinct_at_codec_uniform_at_service
    (claims : Payload) (k raw : String) (e now : Int)
    (hexp : claims.exp = some e) (hlt : e < now) (hk : k ≠ SECRET_KEY) :
    decode_jwt (TokenStr.signed claims SECRET_KEY ALGORITHM) now
      = Except.error JoseError.expiredSignature
    ∧ decode_jwt (TokenStr.signed claims k ALGORITHM) now
      = Except.error JoseError.signatureFailed
    ∧ decode_jwt (TokenStr.malformed raw) now
      = Except.error JoseError.notEnoughSegments
    ∧ decode_refresh_token (TokenStr.signed claims SECRET_KEY ALGORITHM) now
      = Except.error credentialsException
    ∧ decode_refresh_token (TokenStr.signed claims k ALGORITHM) now
      = Except.error credentialsException
    ∧ decode_refresh_token (TokenStr.malformed raw) now
      = Except.error credentialsException
    ∧ (∀ db st,
        (get_current_user (TokenStr.signed claims SECRET_KEY ALGORITHM) now db st).1
          = Except.error credentialsException)
    ∧ (∀ db st,
        (get_current_user (TokenStr.malformed raw) now db st).1
          = Except.error credentialsException) := by
  have h1 : decode_jwt (TokenStr.signed claims SECRET_KEY ALGORITHM) now
      = Except.error JoseError.expiredSignature := by
    unfold decode_jwt jwt_decode
    simp [hexp, hlt]
  have h2 : decode_jwt (TokenStr.signed claims k ALGORITHM) now
      = Except.error JoseError.signatureFailed := by
    unfold decode_jwt jwt_decode
    simp [hk]
  have h3 : decode_jwt (TokenStr.malformed raw) now
      = Except.error JoseError.notEnoughSegments := rfl
  refine ⟨h1, h2, h3, ?_, ?_, ?_, ?_, ?_⟩
  · simp [decode_refresh_token, h1]
  · simp [decode_refresh_token, h2]
  · simp [decode_refresh_token, h3]
  · intro db st
    simp [get_current_user, h1]
  · intro db st
    simp [get_current_user, h3]

/-- C4 amended witness: concrete expired token at instant 10. -/
theorem decode_errors_distinct_witness :
    decode_jwt (TokenStr.signed expiredClaims SECRET_KEY ALGORITHM) 10
      = Except.error JoseError.expiredSignature :=
  (decode_errors_distinct_at_codec_uniform_at_service expiredClaims forgedKey rawA 5 10
    (by decide) (by decide) (by decide)).1

/-- C3: contrary to the spec scenario, an access token issued with an
explicit `expires_delta` of 0 seconds is not expired at issuance — Python's
`expires_delta or 15 * 60` treats 0 as falsy — so the token carries the
default 15-minute expiry and resolving it immediately succeeds, returning
the identity instead of failing with an expired-token error. -/
theorem ttl_zero_access_token_not_expired (email : String) (now : Int)
    (db : UserStore) (user : User) (hdb : db email = some user) :
    create_access_token (mkSubData email) (some 0) now
      = TokenStr.signed
          { sub := some email, iat := some now, exp := some (now + 15 * 60),
            scope := some accessScope } SECRET_KEY ALGORITHM
    ∧ (get_current_user (create_access_token (mkSubData email) (some 0) now)
        now db emptyRedis).1 = Except.ok user := by
  have hnl : ¬ (now + 15 * 60 < now) := by omega
  constructor
  · unfold create_access_token encode_jwt jwt_encode mkSubData
    simp
  · unfold get_current_user create_access_token encode_jwt jwt_encode decode_jwt jwt_decode mkSubData
    simp [hnl, redis_get, emptyRedis, repository_users.get_user_by_email, hdb]

/-- C3 witness: the concrete ttl=0 token for `a@x.com` resolves to the
stored identity immediately after issuance. -/
theorem ttl_zero_access_token_not_expired_witness :
    (get_current_user (create_access_token (mkSubData emailA) (some 0) 0) 0 dbA emptyRedis).1
      = Except.ok userConfA :=
  (ttl_zero_access_token_not_expired emailA 0 dbA userConfA (by decide)).2

/-- C5: the login route performs its checks in the fixed order existence →
confirmation → password, each failure carrying its own distinct 401 reason
and leaving the user table unchanged with no token pair issued; an existing
unconfirmed identity fails with `Email not confirmed` regardless of the
supplied password. -/
theorem login_checks_ordered (username password : String) (db : UserStore) (now : Int) :
    (db username = none →
      routes_auth.login username password db now
        = (Except.error (RouteErr.http invalidEmailErr), db))
    ∧ (∀ user, db username = some user → user.confirmed = false →
      routes_auth.login username password db now
        = (Except.error (RouteErr.http notConfirmedErr), db))
    ∧ (∀ user, db username = some user → user.confirmed = true →
        verify_password password user.password = Except.ok false →
      routes_auth.login username password db now
        = (Except.error (RouteErr.http invalidPasswordErr), db)) := by
  refine ⟨?_, ?_, ?_⟩
  · intro h
    simp [routes_auth.login, repository_users.get_user_by_email, h]
  · intro user h hc
    simp [routes_auth.login, repository_users.get_user_by_email, h, hc]
  · intro user h hc hv
    simp [routes_auth.login, repository_users.get_user_by_email, h, hc, hv]

/-- C5 witness: the stored hash of the unconfirmed identity matches the
supplied password, yet login fails with `Email not confirmed` and the table
is unchanged. -/
theorem login_checks_ordered_witness :
    verify_password pwA userUnconfA.password = Except.ok true
    ∧ routes_auth.login emailA pwA dbUnconfA 0
        = (Except.error (RouteErr.http notConfirmedErr), dbUnconfA) :=
  ⟨by decide,
   (login_checks_ordered emailA pwA dbUnconfA 0).2.1 userUnconfA (by decide) (by decide)⟩

/-- C9: email confirmation is idempotent — on an existing unconfirmed
identity the first `confirmed_email` call sets `confirmed` to true and
answers `Email confirmed`; a second call on the resulting table succeeds
with `Your email is already confirmed` and changes nothing. -/
theorem confirm_email_idempotent (t : TokenStr) (now now2 : Int) (db : UserStore)
    (email : String) (user : User)
    (hget : get_email_from_token t now = Except.ok (some email))
    (hget2 : get_email_from_token t now2 = Except.ok (some email))
    (hdb : db email = some user)
    (hkey : user.email = email)
    (hunconf : user.confirmed = false) :
    (routes_auth.confirmed_email t db now).1 = Except.ok routes_auth.emailConfirmedMsg
    ∧ (routes_auth.confirmed_email t db now).2 email = some { user with confirmed := true }
    ∧ routes_auth.confirmed_email t (routes_auth.confirmed_email t db now).2 now2
        = (Except.ok routes_auth.alreadyConfirmedMsg,
           (routes_auth.confirmed_email t db now).2) := by
  have hfirst : routes_auth.confirmed_email t db now
      = (Except.ok routes_auth.emailConfirmedMsg, repository_users.confirmed_email user db) := by
    simp [routes_auth.confirmed_email, hget, repository_users.get_user_by_email, hdb, hunconf]
  have hdb1 : repository_users.confirmed_email user db email
      = some { user with confirmed := true } := by
    simp [repository_users.confirmed_email, hkey]
  refine ⟨by rw [hfirst], by rw [hfirst]; exact hdb1, ?_⟩
  rw [hfirst]
  simp [routes_auth.confirmed_email, hget2, repository_users.get_user_by_email, hdb1]

/-- C9 witness: the concrete email token confirms `a@x.com`. -/
theorem confirm_email_idempotent_witness :
    (routes_auth.confirmed_email emailTokA dbUnconfA 0).1
      = Except.ok routes_auth.emailConfirmedMsg :=
  (confirm_email_idempotent emailTokA 0 0 dbUnconfA emailA userUnconfA
    (by decide) (by decide) (by decide) (by decide) (by decide)).1

/-- C7: resolving a valid access token on a cache miss falls back to the
user store (the consulted-store flag is true), writes the identity into the
cache with expiry `now + 900` before returning it, and a second resolution
within the TTL window is served from the cache — it returns the same
identity with the consulted-store flag false, for any user table. -/
theorem resolve_bearer_cache_fill_then_hit (t : TokenStr) (now now2 : Int)
    (db : UserStore) (st : Redis) (p : Payload) (email : String) (user : User)
    (hdec : decode_jwt t now = Except.ok p)
    (hscope : p.scope = some accessScope)
    (hsub : p.sub = some email)
    (hmiss : redis_get st (userKey email) now = none)
    (hdb : db email = some user)
    (hdec2 : decode_jwt t now2 = Except.ok p)
    (hwin : now2 < now + 900) :
    (get_current_user t now db st).1 = Except.ok user
    ∧ (get_current_user t now db st).2.2 = true
    ∧ (get_current_user t now db st).2.1 (userKey email) = some (user, some (now + 900))
    ∧ ∀ db2,
        (get_current_user t now2 db2 (get_current_user t now db st).2.1).1 = Except.ok user
        ∧ (get_current_user t now2 db2 (get_current_user t now db st).2.1).2.2 = false := by
  have hfirst : get_current_user t now db st
      = (Except.ok user,
         redis_expire (redis_set st (userKey email) user) (userKey email) 900 now, true) := by
    simp [get_current_user, hdec, hscope, hsub, hmiss,
      repository_users.get_user_by_email, hdb]
  have hkey2 : redis_expire (redis_set st (userKey email) user) (userKey email) 900 now
      (userKey email) = some (user, some (now + 900)) := by
    simp [redis_expire, redis_set]
  have hhit : redis_get
      (redis_expire (redis_set st (userKey email) user) (userKey email) 900 now)
      (userKey email) now2 = some user := by
    simp [redis_get, hkey2, hwin]
  refine ⟨by rw [hfirst], by rw [hfirst], by rw [hfirst]; exact hkey2, ?_⟩
  intro db2
  rw [hfirst]
  constructor
  · simp [get_current_user, hdec2, hscope, hsub, hhit]
  · simp [get_current_user, hdec2, hscope, hsub, hhit]

/-- C7 witness: concrete miss-then-hit for `a@x.com` at instant 0. -/
theorem resolve_bearer_cache_fill_then_hit_witness :
    (get_current_user accessTokA 0 dbA emptyRedis).1 = Except.ok userConfA :=
  (resolve_bearer_cache_fill_then_hit accessTokA 0 0 dbA emptyRedis
    { sub := some emailA, iat := some 0, exp := some 900, scope := some accessScope }
    emailA userConfA (by decide) (by decide) (by decide) (by decide) (by decide)
    (by decide) (by decide)).1

/-- C1: a validly signed refresh-scoped token `rt1` that differs from the
identity's stored refresh token makes the refresh route clear the stored
token (set it to none) and fail 401 `Invalid refresh token`; consequently,
when `refresh(rt1)` succeeds and persists the new refresh token `rt2` with
`rt2 ≠ rt1`, a subsequent `refresh(rt1)` fails with the same
revoked-token error. -/
theorem refresh_mismatch_revokes_and_rotation_blocks_reuse
    (db : UserStore) (rt1 : TokenStr) (now now2 : Int) (email : String) (user : User)
    (hdec : decode_refresh_token rt1 now = Except.ok (some email))
    (hdb : db email = some user)
    (hkey : user.email = email) :
    (user.refresh_token ≠ some rt1 →
      routes_auth.refresh_token rt1 db now
        = (Except.error (RouteErr.http invalidRefreshErr),
           repository_users.update_token user none db)
      ∧ repository_users.update_token user none db email
          = some { user with refresh_token := none })
    ∧ (∀ at2 rt2,
        (routes_auth.refresh_token rt1 db now).1 = Except.ok (at2, rt2) →
        rt2 ≠ rt1 →
        decode_refresh_token rt1 now2 = Except.ok (some email) →
        (routes_auth.refresh_token rt1 (routes_auth.refresh_token rt1 db now).2 now2).1
          = Except.error (RouteErr.http invalidRefreshErr)) := by
  constructor
  · intro hne
    constructor
    · simp [routes_auth.refresh_token, hdec, repository_users.get_user_by_email, hdb, hne]
    · simp [repository_users.update_token, hkey]
  · intro at2 rt2 hok hne hdec2
    by_cases hmatch : user.refresh_token = some rt1
    · have hres : routes_auth.refresh_token rt1 db now
          = (Except.ok (create_access_token (mkSubData email) none now,
                        create_refresh_token (mkSubData email) none now),
             repository_users.update_token user
               (some (create_refresh_token (mkSubData email) none now)) db) := by
        simp [routes_auth.refresh_token, hdec, repository_users.get_user_by_email, hdb, hmatch]
      rw [hres] at hok
      have hrt2 : create_refresh_token (mkSubData email) none now = rt2 := by
        injection hok with hpair
        exact congrArg Prod.snd hpair
      have hcrt : create_refresh_token (mkSubData email) none now ≠ rt1 := by
        rw [hrt2]; exact hne
      have hdb1 : repository_users.update_token user
          (some (create_refresh_token (mkSubData email) none now)) db email
          = some { user with
              refresh_token := some (create_refresh_token (mkSubData email) none now) } := by
        simp [repository_users.update_token, hkey]
      rw [hres]
      simp [routes_auth.refresh_token, hdec2, repository_users.get_user_by_email, hdb1, hcrt]
    · have hres : routes_auth.refresh_token rt1 db now
          = (Except.error (RouteErr.http invalidRefreshErr),
             repository_users.update_token user none db) := by
        simp [routes_auth.refresh_token, hdec, repository_users.get_user_by_email, hdb, hmatch]
      rw [hres] at hok
      exact absurd hok (by simp)

/-- C1 witness: a stale stored token (none) mismatches `refreshTokA`, so the
refresh route clears the slot and fails 401 `Invalid refresh token`. -/
theorem refresh_mismatch_revokes_witness :
    routes_auth.refresh_token refreshTokA dbStaleA 0
      = (Except.error (RouteErr.http invalidRefreshErr),
         repository_users.update_token userStaleA none dbStaleA) :=
  ((refresh_mismatch_revokes_and_rotation_blocks_reuse dbStaleA refreshTokA 0 0 emailA
    userStaleA (by decide) (by decide) (by decide)).1 (by decide)).1

/-- C10: a validly signed, unexpired, refresh-scoped token whose decoded
subject has no matching user makes the refresh route dereference the absent
lookup result: the call ends in an unhandled `AttributeError`, never a typed
`HTTPException`, and the user table is untouched. -/
theorem refresh_unknown_subject_unhandled_fault (t : TokenStr) (now : Int)
    (db : UserStore) (email : String)
    (hdec : decode_refresh_token t now = Except.ok (some email))
    (habs : db email = none) :
    routes_auth.refresh_token t db now = (Except.error RouteErr.unhandledAttributeError, db)
    ∧ ∀ e, (routes_auth.refresh_token t db now).1 ≠ Except.error (RouteErr.http e) := by
  have h : routes_auth.refresh_token t db now
      = (Except.error RouteErr.unhandledAttributeError, db) := by
    simp [routes_auth.refresh_token, hdec, repository_users.get_user_by_email, habs]
  refine ⟨h, ?_⟩
  intro e
  rw [h]
  simp

/-- C10 witness: `refreshTokA` against the empty user table. -/
theorem refresh_unknown_subject_unhandled_fault_witness :
    routes_auth.refresh_token refreshTokA (fun _ => none) 0
      = (Except.error RouteErr.unhandledAttributeError, (fun _ => none : UserStore)) :=
  (refresh_unknown_subject_unhandled_fault refreshTokA 0 (fun _ => none) emailA
    (by decide) rfl).1

end M02Auth
